import Mathlib

/-!
Shallow embedding of the scheduling and dispatch engine of the
CROSS-LINK-ACCESS-APP repository, covering:

* `src/src/lib/errors.ts` — error construction (`createError`), the
  exponential-backoff delay of `withRetry`, and the `RateLimitTracker`;
* `src/src/types/post.ts` — `Post` and `CrossPostTarget`;
* `src/src/stores/postStore.ts` — the post store's `updatePost` and
  `updateCrossPostTarget` actions;
* `src/src/services/scheduler.ts` — `SchedulerService` (job store,
  `schedulePost`, `cancelScheduledPost`, `getScheduledJobs`,
  `executeJob`, `executePostToAllTargets`, `start`/`stop`).

Timestamps (`Date` values) are modelled as epoch milliseconds of type `Int`;
`Date.now()` and `new Date()` become an explicit `now : Int` parameter.
JavaScript `Map`s are modelled as lists with unique keys; partial object
updates (`Partial<T>` spreads) become structures of `Option` fields merged
with `Option.getD` / first-`some` semantics.
-/

namespace CrossLink

/-- Platform identifiers, from `src/src/types/platform.ts` (`PlatformType`). -/
inductive PlatformType
  | bluesky
  | youtube
  | instagram
  | threads
  | tiktok
deriving DecidableEq, Repr

/-! ## errors.ts -/

/-- Error codes, from `src/src/lib/errors.ts` (`ErrorCode`). -/
inductive ErrorCode
  | NETWORK_ERROR
  | AUTH_EXPIRED
  | AUTH_FAILED
  | RATE_LIMITED
  | CONTENT_TOO_LONG
  | MEDIA_INVALID
  | MEDIA_TOO_LARGE
  | PLATFORM_ERROR
  | NOT_AUTHENTICATED
  | VALIDATION_ERROR
  | UNKNOWN_ERROR
deriving DecidableEq, Repr

/-- The standardized application error, from `errors.ts` (`AppError`).
The `details` payload (`Record<string, unknown>`) is not observed by any
operation modelled here and is omitted. -/
structure AppError where
  code : ErrorCode
  message : String
  platform : Option PlatformType
  retryable : Bool
  timestamp : Int
deriving DecidableEq, Repr

/-- The Japanese default message for each code, from the `errorMessages`
table in `errors.ts` (the `ja` component; `createError` only reads `ja`). -/
def errorMessagesJa : ErrorCode → String
  | .NETWORK_ERROR => "ネットワークエラーが発生しました。接続を確認してください。"
  | .AUTH_EXPIRED => "認証の有効期限が切れました。再ログインしてください。"
  | .AUTH_FAILED => "認証に失敗しました。資格情報を確認してください。"
  | .RATE_LIMITED => "レート制限に達しました。しばらく待ってから再試行してください。"
  | .CONTENT_TOO_LONG => "コンテンツが長すぎます。文字数を減らしてください。"
  | .MEDIA_INVALID => "メディアファイルが無効です。形式を確認してください。"
  | .MEDIA_TOO_LARGE => "メディアファイルが大きすぎます。"
  | .PLATFORM_ERROR => "プラットフォームでエラーが発生しました。"
  | .NOT_AUTHENTICATED => "認証されていません。ログインしてください。"
  | .VALIDATION_ERROR => "入力内容に問題があります。"
  | .UNKNOWN_ERROR => "不明なエラーが発生しました。"

/-- The optional argument object of `createError`. -/
structure CreateErrorOptions where
  message : Option String := none
  platform : Option PlatformType := none
  retryable : Option Bool := none
deriving DecidableEq, Repr

/-- The codes that `createError` classifies as retryable by default
(`retryableCodes` in `errors.ts`). -/
def retryableCodes : List ErrorCode :=
  [.NETWORK_ERROR, .RATE_LIMITED, .PLATFORM_ERROR]

/-- `createError` from `errors.ts`. `options?.message || errorMessages[code].ja`
uses JavaScript truthiness, so an empty-string message also falls back to the
default; `options?.retryable ?? retryableCodes.includes(code)` keeps an
explicit override, else consults `retryableCodes`. `new Date()` is the
explicit `now`. -/
def createError (code : ErrorCode) (options : CreateErrorOptions) (now : Int) :
    AppError :=
  { code := code
    message :=
      match options.message with
      | some m => if m = "" then errorMessagesJa code else m
      | none => errorMessagesJa code
    platform := options.platform
    retryable := options.retryable.getD (retryableCodes.contains code)
    timestamp := now }

/-- The per-attempt delay computed inside `withRetry` in `errors.ts`:
`Math.min(baseDelayMs * Math.pow(2, attempt) + Math.random() * 1000, maxDelayMs)`.
The random jitter `Math.random() * 1000` is passed in as `jitter`; callers of
the lemmas constrain it to `[0, 1000)`. Delays are rationals since the
jitter is a real-valued quantity. -/
def backoffDelay (baseDelayMs maxDelayMs : ℚ) (attempt : Nat) (jitter : ℚ) : ℚ :=
  min (baseDelayMs * 2 ^ attempt + jitter) maxDelayMs

/-- Default `baseDelayMs` of `withRetry` (`options?.baseDelayMs ?? 1000`). -/
def withRetryBaseDelayMs : ℚ := 1000

/-- Default `maxDelayMs` of `withRetry` (`options?.maxDelayMs ?? 30000`). -/
def withRetryMaxDelayMs : ℚ := 30000

/-! ### RateLimitTracker (errors.ts) -/

/-- One cached limit record of the `RateLimitTracker`
(`{ remaining: number; resetAt: Date }`). -/
structure RateLimitRecord where
  remaining : Int
  resetAt : Int
deriving DecidableEq, Repr

/-- The tracker's `limits` map (`Map<string, {remaining, resetAt}>` keyed by
platform), modelled as an association list with at most one entry per key. -/
def RateLimitState := List (PlatformType × RateLimitRecord)

instance : DecidableEq RateLimitState := by
  unfold RateLimitState
  infer_instance

/-- `this.limits.get(platform)`. -/
def limitsGet (st : RateLimitState) (platform : PlatformType) :
    Option RateLimitRecord :=
  (st.find? (fun e => e.1 = platform)).map (fun e => e.2)

/-- `this.limits.delete(platform)`. -/
def limitsDelete (st : RateLimitState) (platform : PlatformType) :
    RateLimitState :=
  st.filter (fun e => ¬ e.1 = platform)

/-- `RateLimitTracker.canProceed`: true when no record exists; when the
record expired (`new Date() >= resetAt`) the record is deleted and the
answer is true; otherwise `remaining > 0`. Returns the answer together with
the (possibly mutated) map. -/
def canProceed (st : RateLimitState) (platform : PlatformType) (now : Int) :
    Bool × RateLimitState :=
  match limitsGet st platform with
  | none => (true, st)
  | some limit =>
    if limit.resetAt ≤ now then (true, limitsDelete st platform)
    else (decide (0 < limit.remaining), st)

/-- `RateLimitTracker.getWaitTime`: `0` when no record exists or the record
expired, else `resetAt - now`. -/
def getWaitTime (st : RateLimitState) (platform : PlatformType) (now : Int) :
    Int :=
  match limitsGet st platform with
  | none => 0
  | some limit => if limit.resetAt ≤ now then 0 else limit.resetAt - now

/-! ## types/post.ts -/

/-- Post lifecycle status, from `src/src/types/post.ts` (`PostStatus`).
The source literal `'partial'` is rendered `partial_` because the bare word
is a Lean keyword. -/
inductive PostStatus
  | draft
  | scheduled
  | posting
  | posted
  | partial_
  | failed
deriving DecidableEq, Repr

/-- Content type of a post (`ContentType`). -/
inductive ContentType
  | text
  | image
  | video
  | carousel
deriving DecidableEq, Repr

/-- Per-target delivery status (`CrossPostTarget['status']`). -/
inductive TargetStatus
  | pending
  | posting
  | success
  | failed
  | skipped
deriving DecidableEq, Repr

/-- One cross-post delivery target, from `types/post.ts` (`CrossPostTarget`). -/
structure CrossPostTarget where
  id : String
  postId : String
  accountId : String
  platformPostId : Option String
  platformPostUrl : Option String
  status : TargetStatus
  errorCode : Option String
  errorMessage : Option String
  retryCount : Nat
  postedAt : Option Int
deriving DecidableEq, Repr

/-- A post, from `types/post.ts` (`Post`). The `crossPostTargets` field is
read by `SchedulerService.executePostToAllTargets`
(`for (const target of post.crossPostTargets)`) although the `Post`
interface declaration omits it; it is included here because the scheduler
depends on it. -/
structure Post where
  id : String
  title : Option String
  content : String
  contentType : ContentType
  mediaPaths : Option (List String)
  hashtags : Option (List String)
  status : PostStatus
  scheduledAt : Option Int
  postedAt : Option Int
  createdAt : Int
  updatedAt : Int
  crossPostTargets : List CrossPostTarget
deriving DecidableEq, Repr

/-! ## stores/postStore.ts -/

/-- The slice of the post store's state that the scheduler and the claims
touch: the `posts` array and the `crossPostTargets` array. -/
structure PostStoreState where
  posts : List Post
  crossPostTargets : List CrossPostTarget
deriving DecidableEq, Repr

/-- The `Partial<Post>` updates the scheduler passes to `updatePost`: it only
ever writes `status` and `postedAt`. An absent key (`none`) leaves the field
of the post unchanged; a present key overwrites it. -/
structure PostUpdate where
  status : Option PostStatus := none
  postedAt : Option Int := none
deriving DecidableEq, Repr

/-- The spread `{ ...p, ...updates, updatedAt: new Date() }` performed by
`updatePost` for a matching post. -/
def applyPostUpdate (p : Post) (u : PostUpdate) (now : Int) : Post :=
  { p with
      status := u.status.getD p.status
      postedAt := match u.postedAt with
        | some d => some d
        | none => p.postedAt
      updatedAt := now }

/-- `updatePost(id, updates)` from `postStore.ts`: maps over `posts`,
merging `updates` (and stamping `updatedAt`) into every post whose `id`
matches. -/
def updatePost (ps : PostStoreState) (id : String) (u : PostUpdate)
    (now : Int) : PostStoreState :=
  { ps with
      posts := ps.posts.map (fun p =>
        if p.id = id then applyPostUpdate p u now else p) }

/-- A `Partial<CrossPostTarget>` update as passed to
`updateCrossPostTarget`. The `id` key is never part of such an update in
the repository and is not modelled. -/
structure TargetUpdate where
  platformPostId : Option String := none
  platformPostUrl : Option String := none
  status : Option TargetStatus := none
  errorCode : Option String := none
  errorMessage : Option String := none
  retryCount : Option Nat := none
  postedAt : Option Int := none
deriving DecidableEq, Repr

/-- The spread `{ ...t, ...updates }` performed by `updateCrossPostTarget`
for a matching target. -/
def applyTargetUpdate (t : CrossPostTarget) (u : TargetUpdate) :
    CrossPostTarget :=
  { t with
      platformPostId := match u.platformPostId with
        | some v => some v
        | none => t.platformPostId
      platformPostUrl := match u.platformPostUrl with
        | some v => some v
        | none => t.platformPostUrl
      status := u.status.getD t.status
      errorCode := match u.errorCode with
        | some v => some v
        | none => t.errorCode
      errorMessage := match u.errorMessage with
        | some v => some v
        | none => t.errorMessage
      retryCount := u.retryCount.getD t.retryCount
      postedAt := match u.postedAt with
        | some v => some v
        | none => t.postedAt }

/-- `updateCrossPostTarget(id, updates)` from `postStore.ts`: maps over
`crossPostTargets`, merging `updates` into every target whose `id` matches,
with no further condition. -/
def updateCrossPostTarget (ps : PostStoreState) (id : String)
    (u : TargetUpdate) : PostStoreState :=
  { ps with
      crossPostTargets := ps.crossPostTargets.map (fun t =>
        if t.id = id then applyTargetUpdate t u else t) }

/-- `postStore.posts.find(p => p.id === postId)`. -/
def findPost (ps : PostStoreState) (postId : String) : Option Post :=
  ps.posts.find? (fun p => p.id = postId)

/-! ## services/scheduler.ts -/

/-- Job lifecycle status (`ScheduledJob['status']`). -/
inductive JobStatus
  | pending
  | processing
  | completed
  | failed
deriving DecidableEq, Repr

/-- A scheduled job, from `scheduler.ts` (`ScheduledJob`). -/
structure ScheduledJob where
  id : String
  postId : String
  scheduledAt : Int
  status : JobStatus
  retryCount : Nat
  maxRetries : Nat
  lastError : Option String
deriving DecidableEq, Repr

/-- `this.jobs.get(jobId)` on the scheduler's `Map<string, ScheduledJob>`,
modelled as a list of jobs with pairwise-distinct `id`s (the map key is
always `job.id`). -/
def jobsGet (jobs : List ScheduledJob) (jobId : String) :
    Option ScheduledJob :=
  jobs.find? (fun j => j.id = jobId)

/-- `this.jobs.set(job.id, job)`: replace the entry with that key, else
append (a JavaScript `Map` keeps insertion order and overwrites in place). -/
def jobsSet (jobs : List ScheduledJob) (job : ScheduledJob) :
    List ScheduledJob :=
  if jobs.any (fun j => j.id = job.id) then
    jobs.map (fun j => if j.id = job.id then job else j)
  else
    jobs ++ [job]

/-- `this.jobs.delete(jobId)`. -/
def jobsDelete (jobs : List ScheduledJob) (jobId : String) :
    List ScheduledJob :=
  jobs.filter (fun j => ¬ j.id = jobId)

/-- The mutable state of a `SchedulerService` instance. `window.setInterval`
registrations are modelled by `activeTimers` (the ids of currently live
recurring timers, most recent first) and `nextTimerId` (the id the next
`setInterval` call returns); `checkInterval` is the service's stored timer
id. -/
structure SchedulerState where
  jobs : List ScheduledJob
  checkInterval : Option Nat
  isRunning : Bool
  nextTimerId : Nat
  activeTimers : List Nat
deriving DecidableEq, Repr

/-- A freshly constructed `SchedulerService` with no timers registered. -/
def initialScheduler : SchedulerState :=
  { jobs := []
    checkInterval := none
    isRunning := false
    nextTimerId := 0
    activeTimers := [] }

/-- `SchedulerService.start`: returns immediately when already running;
otherwise sets `isRunning`, registers the recurring check interval and
remembers its id. (The initial `processScheduledPosts()` call is modelled
as a separate `executeDue` step of the system, since its effect needs the
clock and the dispatch outcomes.) -/
def start (s : SchedulerState) : SchedulerState :=
  if s.isRunning then s
  else
    { s with
        isRunning := true
        checkInterval := some s.nextTimerId
        activeTimers := s.nextTimerId :: s.activeTimers
        nextTimerId := s.nextTimerId + 1 }

/-- `SchedulerService.stop`: clears the interval when one is registered and
marks the service not running. -/
def stop (s : SchedulerState) : SchedulerState :=
  match s.checkInterval with
  | some tid =>
    { s with
        checkInterval := none
        isRunning := false
        activeTimers := s.activeTimers.filter (fun t => ¬ t = tid) }
  | none => { s with isRunning := false }

/-- `SchedulerService.schedulePost`: creates a `pending` job with
`retryCount 0`, `maxRetries 3` and stores it under its fresh id
(`crypto.randomUUID()` is the explicit `newId`). Returns the new state and
the job. -/
def schedulePost (s : SchedulerState) (post : Post) (scheduledAt : Int)
    (newId : String) : SchedulerState × ScheduledJob :=
  let job : ScheduledJob :=
    { id := newId
      postId := post.id
      scheduledAt := scheduledAt
      status := .pending
      retryCount := 0
      maxRetries := 3
      lastError := none }
  ({ s with jobs := jobsSet s.jobs job }, job)

/-- `SchedulerService.cancelScheduledPost`: deletes the job and returns
`true` iff it exists and is still `pending`; otherwise returns `false` and
leaves the state unchanged. -/
def cancelScheduledPost (s : SchedulerState) (jobId : String) :
    SchedulerState × Bool :=
  match jobsGet s.jobs jobId with
  | some job =>
    if job.status = .pending then
      ({ s with jobs := jobsDelete s.jobs jobId }, true)
    else (s, false)
  | none => (s, false)

/-- `SchedulerService.getScheduledJobs`: all `pending` jobs. -/
def getScheduledJobs (s : SchedulerState) : List ScheduledJob :=
  s.jobs.filter (fun job => job.status = .pending)

/-- `SchedulerService.getPendingCount`. -/
def getPendingCount (s : SchedulerState) : Nat :=
  (s.jobs.filter (fun j => j.status = .pending)).length

/-- The due-jobs snapshot taken by `processScheduledPosts`:
`job.status === 'pending' && new Date(job.scheduledAt) <= now`. -/
def duePosts (s : SchedulerState) (now : Int) : List ScheduledJob :=
  s.jobs.filter (fun job =>
    job.status = .pending ∧ job.scheduledAt ≤ now)

/-- One per-target outcome of `executePostToAllTargets`
(`{ targetId: string; success: boolean; error?: string }`). -/
structure DispatchResult where
  targetId : String
  success : Bool
  error : Option String
deriving DecidableEq, Repr

/-- `SchedulerService.executePostToAllTargets`: the source's placeholder
dispatch — its `try` body only awaits a timer and pushes
`{ targetId, success: true }`, so every target yields a success result and
the `catch` branch is unreachable. -/
def executePostToAllTargets (post : Post) : List DispatchResult :=
  post.crossPostTargets.map (fun target =>
    { targetId := target.id, success := true, error := none })

/-- The retry delay hard-coded in `executeJob`'s catch branch:
`Date.now() + 5 * 60 * 1000` (5 minutes, in ms). -/
def schedulerRetryDelayMs : Int := 5 * 60 * 1000

/-- The `catch` branch of `executeJob`: increments `retryCount`, records
the error message; when the new count reaches `maxRetries` the job becomes
`failed` and the post is marked `failed`, otherwise the job returns to
`pending` rescheduled 5 minutes from `now`. -/
def executeJobCatch (now : Int) (job : ScheduledJob) (ps : PostStoreState)
    (msg : String) : ScheduledJob × PostStoreState :=
  if job.maxRetries ≤ job.retryCount + 1 then
    ({ job with
        retryCount := job.retryCount + 1
        lastError := some msg
        status := .failed },
      updatePost ps job.postId { status := some .failed } now)
  else
    ({ job with
        retryCount := job.retryCount + 1
        lastError := some msg
        status := .pending
        scheduledAt := now + schedulerRetryDelayMs },
      ps)

/-- `SchedulerService.executeJob`, parameterized by the list of per-target
dispatch outcomes `results` (the value of
`await this.executePostToAllTargets(post)`); `executeJob` instantiates it
with the source's placeholder dispatch. The job is set to `processing`,
the post is resolved (`throw new Error('Post not found')` when absent,
landing in the catch), the post is marked `posting`, and the results are
aggregated: all successes → job `completed`, post `posted` with `postedAt`;
some but not all successes → job `completed`, post `partial`; no success →
`throw new Error('All platforms failed')`, landing in the catch. -/
def executeJobWith (now : Int) (results : List DispatchResult)
    (ps : PostStoreState) (job : ScheduledJob) :
    ScheduledJob × PostStoreState :=
  let job1 := { job with status := JobStatus.processing }
  match findPost ps job.postId with
  | none => executeJobCatch now job1 ps "Post not found"
  | some _ =>
    let ps1 := updatePost ps job.postId { status := some .posting } now
    let allSuccess := results.all (fun r => r.success)
    let anySuccess := results.any (fun r => r.success)
    if allSuccess then
      ({ job1 with status := .completed },
        updatePost ps1 job.postId
          { status := some .posted, postedAt := some now } now)
    else if anySuccess then
      ({ job1 with status := .completed },
        updatePost ps1 job.postId { status := some .partial_ } now)
    else
      executeJobCatch now job1 ps1 "All platforms failed"

/-- `SchedulerService.executeJob` as written: the dispatch results are the
placeholder `executePostToAllTargets(post)` (all successes); when the post
is absent the results are never computed, matching `executeJobWith`, whose
missing-post branch ignores them. -/
def executeJob (now : Int) (ps : PostStoreState) (job : ScheduledJob) :
    ScheduledJob × PostStoreState :=
  executeJobWith now
    (match findPost ps job.postId with
      | some post => executePostToAllTargets post
      | none => [])
    ps job

/-! ## System state and reachability

The scheduler singleton together with the post store it mutates. The
`Reachable` relation closes the initial state under the scheduler's
operations: `schedulePost` (with a fresh UUID), `cancelScheduledPost`,
`start`, `stop`, and execution of a due pending job as performed by
`processScheduledPosts`. The per-target dispatch outcomes of an execution
are a parameter of the step: the source's `executePostToAllTargets` is a
placeholder that always succeeds, and the parameter covers both it and the
platform-service integration it stands in for. -/

structure SystemState where
  sched : SchedulerState
  store : PostStoreState
deriving DecidableEq, Repr

/-- The initial system: a fresh `SchedulerService` and an empty post store. -/
def initialSystem : SystemState :=
  { sched := initialScheduler, store := { posts := [], crossPostTargets := [] } }

/-- States reachable through the scheduler's operations. -/
inductive Reachable : SystemState → Prop
  | init : Reachable initialSystem
  | schedule {st : SystemState} (post : Post) (scheduledAt : Int)
      (newId : String) :
      Reachable st → jobsGet st.sched.jobs newId = none →
      Reachable
        { sched := (schedulePost st.sched post scheduledAt newId).1
          store := st.store }
  | cancel {st : SystemState} (jobId : String) :
      Reachable st →
      Reachable
        { sched := (cancelScheduledPost st.sched jobId).1, store := st.store }
  | startStep {st : SystemState} :
      Reachable st → Reachable { sched := start st.sched, store := st.store }
  | stopStep {st : SystemState} :
      Reachable st → Reachable { sched := stop st.sched, store := st.store }
  | executeDue {st : SystemState} (job : ScheduledJob) (now : Int)
      (results : List DispatchResult) :
      Reachable st → jobsGet st.sched.jobs job.id = some job →
      job.status = .pending → job.scheduledAt ≤ now →
      Reachable
        { sched :=
            { st.sched with
                jobs := jobsSet st.sched.jobs
                  (executeJobWith now results st.store job).1 }
          store := (executeJobWith now results st.store job).2 }

/-! ## Helper lemmas -/

theorem applyPostUpdate_id (p : Post) (u : PostUpdate) (now : Int) :
    (applyPostUpdate p u now).id = p.id := rfl

theorem find?_map_updatePost (l : List Post) (pid : String) (u : PostUpdate)
    (now : Int) :
    (l.map (fun p => if p.id = pid then applyPostUpdate p u now else p)).find?
        (fun p => p.id = pid)
      = (l.find? (fun p => p.id = pid)).map
          (fun p => applyPostUpdate p u now) := by
  induction l with
  | nil => rfl
  | cons h t ih =>
    by_cases hp : h.id = pid
    · simp [List.find?_cons, hp, applyPostUpdate]
    · simp [List.find?_cons, hp, ih]

theorem findPost_updatePost (ps : PostStoreState) (pid : String)
    (u : PostUpdate) (now : Int) :
    findPost (updatePost ps pid u now) pid
      = (findPost ps pid).map (fun p => applyPostUpdate p u now) := by
  unfold findPost updatePost
  exact find?_map_updatePost ps.posts pid u now

theorem executeJobCatch_id (now : Int) (job : ScheduledJob)
    (ps : PostStoreState) (msg : String) :
    (executeJobCatch now job ps msg).1.id = job.id := by
  unfold executeJobCatch
  split <;> rfl

theorem executeJobWith_id (now : Int) (results : List DispatchResult)
    (ps : PostStoreState) (job : ScheduledJob) :
    (executeJobWith now results ps job).1.id = job.id := by
  unfold executeJobWith
  cases findPost ps job.postId with
  | none => exact executeJobCatch_id ..
  | some _ =>
    simp only []
    split
    · rfl
    · split
      · rfl
      · exact executeJobCatch_id ..

/-- A job as the store keeps it: `maxRetries` is the fixed policy constant
3, the retry count within budget, strictly so while the job can still run. -/
def JobWellFormed (j : ScheduledJob) : Prop :=
  j.maxRetries = 3 ∧ j.retryCount ≤ j.maxRetries ∧
    (j.status = .pending → j.retryCount < j.maxRetries)

instance (j : ScheduledJob) : Decidable (JobWellFormed j) := by
  unfold JobWellFormed
  infer_instance

theorem executeJobCatch_wf (now : Int) (job : ScheduledJob)
    (ps : PostStoreState) (msg : String)
    (hmax : job.maxRetries = 3) (hrc : job.retryCount < job.maxRetries) :
    JobWellFormed (executeJobCatch now job ps msg).1 := by
  unfold executeJobCatch JobWellFormed
  split
  · refine ⟨hmax, ?_, ?_⟩
    · exact hrc
    · intro h
      exact absurd h (by simp)
  · rename_i hlt
    exact ⟨hmax, Nat.le_of_lt (Nat.lt_of_not_le hlt),
      fun _ => Nat.lt_of_not_le hlt⟩

theorem executeJobWith_wf (now : Int) (results : List DispatchResult)
    (ps : PostStoreState) (job : ScheduledJob)
    (hmax : job.maxRetries = 3) (hrc : job.retryCount < job.maxRetries) :
    JobWellFormed (executeJobWith now results ps job).1 := by
  unfold executeJobWith
  cases findPost ps job.postId with
  | none => exact executeJobCatch_wf now _ ps _ hmax hrc
  | some _ =>
    simp only []
    split
    · exact ⟨hmax, Nat.le_of_lt (hmax ▸ hrc), fun h => by simp at h⟩
    · split
      · exact ⟨hmax, Nat.le_of_lt (hmax ▸ hrc), fun h => by simp at h⟩
      · exact executeJobCatch_wf now _ _ _ hmax hrc

theorem mem_jobsSet {jobs : List ScheduledJob} {job j : ScheduledJob}
    (h : j ∈ jobsSet jobs job) : j ∈ jobs ∨ j = job := by
  unfold jobsSet at h
  split at h
  · rcases List.mem_map.mp h with ⟨x, hx, hxj⟩
    by_cases hid : x.id = job.id
    · right
      simp [hid] at hxj
      exact hxj.symm
    · left
      simp [hid] at hxj
      exact hxj ▸ hx
  · rcases List.mem_append.mp h with h | h
    · exact Or.inl h
    · simp at h
      exact Or.inr h

theorem jobs_invariant {st : SystemState} (h : Reachable st) :
    ∀ j ∈ st.sched.jobs, JobWellFormed j := by
  induction h with
  | init => intro j hj; simp [initialSystem, initialScheduler] at hj
  | schedule post scheduledAt newId _ _ ih =>
    intro j hj
    simp only [schedulePost] at hj
    rcases mem_jobsSet hj with hj | hj
    · exact ih j hj
    · subst hj
      exact ⟨rfl, by simp, by simp⟩
  | cancel jobId _ ih =>
    intro j hj
    simp only [cancelScheduledPost] at hj
    split at hj
    · split at hj
      · exact ih j (List.mem_filter.mp hj).1
      · exact ih j hj
    · exact ih j hj
  | startStep _ ih =>
    intro j hj
    simp only [start] at hj
    split at hj
    · exact ih j hj
    · exact ih j hj
  | stopStep _ ih =>
    intro j hj
    simp only [stop] at hj
    split at hj
    · exact ih j hj
    · exact ih j hj
  | executeDue job now results _ hget hpend _ ih =>
    intro j hj
    simp only [] at hj
    rcases mem_jobsSet hj with hj | hj
    · exact ih j hj
    · subst hj
      have hwf := ih job (List.mem_of_find?_eq_some hget)
      exact executeJobWith_wf now results _ job hwf.1 (hwf.2.2 hpend)

/-! ### Branch equations for `executeJobCatch` / `executeJobWith` -/

theorem executeJobCatch_budget (now : Int) (job : ScheduledJob)
    (ps : PostStoreState) (msg : String)
    (h : job.retryCount + 1 < job.maxRetries) :
    executeJobCatch now job ps msg
      = ({ job with
            retryCount := job.retryCount + 1
            lastError := some msg
            status := .pending
            scheduledAt := now + schedulerRetryDelayMs }, ps) := by
  unfold executeJobCatch
  rw [if_neg (by omega)]

theorem executeJobCatch_exhausted (now : Int) (job : ScheduledJob)
    (ps : PostStoreState) (msg : String)
    (h : job.maxRetries ≤ job.retryCount + 1) :
    executeJobCatch now job ps msg
      = ({ job with
            retryCount := job.retryCount + 1
            lastError := some msg
            status := .failed },
          updatePost ps job.postId { status := some .failed } now) := by
  unfold executeJobCatch
  rw [if_pos h]

theorem executeJob_postMissing (now : Int) (ps : PostStoreState)
    (job : ScheduledJob) (hmiss : findPost ps job.postId = none) :
    executeJob now ps job
      = executeJobCatch now { job with status := .processing } ps
          "Post not found" := by
  unfold executeJob executeJobWith
  rw [hmiss]

theorem executeJobWith_allSuccess (now : Int) (results : List DispatchResult)
    (ps : PostStoreState) (job : ScheduledJob) (post : Post)
    (hfound : findPost ps job.postId = some post)
    (hall : results.all (fun r => r.success) = true) :
    executeJobWith now results ps job
      = ({ job with status := .completed },
          updatePost
            (updatePost ps job.postId { status := some .posting } now)
            job.postId { status := some .posted, postedAt := some now }
            now) := by
  unfold executeJobWith
  rw [hfound, hall]
  rfl

theorem executeJobWith_partialSuccess (now : Int)
    (results : List DispatchResult) (ps : PostStoreState)
    (job : ScheduledJob) (post : Post)
    (hfound : findPost ps job.postId = some post)
    (hall : results.all (fun r => r.success) = false)
    (hany : results.any (fun r => r.success) = true) :
    executeJobWith now results ps job
      = ({ job with status := .completed },
          updatePost
            (updatePost ps job.postId { status := some .posting } now)
            job.postId { status := some .partial_ } now) := by
  unfold executeJobWith
  rw [hfound, hall, hany]
  rfl

theorem executeJobWith_noSuccess (now : Int) (results : List DispatchResult)
    (ps : PostStoreState) (job : ScheduledJob) (post : Post)
    (hfound : findPost ps job.postId = some post)
    (hall : results.all (fun r => r.success) = false)
    (hany : results.any (fun r => r.success) = false) :
    executeJobWith now results ps job
      = executeJobCatch now { job with status := .processing }
          (updatePost ps job.postId { status := some .posting } now)
          "All platforms failed" := by
  unfold executeJobWith
  rw [hfound, hall, hany]
  rfl

/-! ## Concrete fixtures used by counterexamples and witnesses -/

/-- An empty post store. -/
def emptyPostStore : PostStoreState := { posts := [], crossPostTargets := [] }

/-- A pending cross-post target. -/
def targetPending : CrossPostTarget :=
  { id := "t1", postId := "p1", accountId := "a1", platformPostId := none
    platformPostUrl := none, status := .pending, errorCode := none
    errorMessage := none, retryCount := 0, postedAt := none }

/-- A target already in the terminal `success` state. -/
def targetSuccess : CrossPostTarget :=
  { id := "t1", postId := "p1", accountId := "a1"
    platformPostId := some "remote-1", platformPostUrl := some "https://x/1"
    status := .success, errorCode := none, errorMessage := none
    retryCount := 0, postedAt := some 50 }

/-- A post with a single pending target. -/
def postP1 : Post :=
  { id := "p1", title := none, content := "hello", contentType := .text
    mediaPaths := none, hashtags := none, status := .scheduled
    scheduledAt := some 0, postedAt := none, createdAt := 0, updatedAt := 0
    crossPostTargets := [targetPending] }

/-- A post store holding `postP1`. -/
def postStoreP1 : PostStoreState :=
  { posts := [postP1], crossPostTargets := [] }

/-- A store whose only target is terminal. -/
def storeWithSuccessTarget : PostStoreState :=
  { posts := [], crossPostTargets := [targetSuccess] }

/-- A result-recording update that marks a target failed. -/
def failUpdate : TargetUpdate :=
  { status := some .failed, errorCode := some "NETWORK_ERROR"
    errorMessage := some "boom" }

/-- A pending job for `postP1` with a full retry budget. -/
def jobJ1 : ScheduledJob :=
  { id := "j1", postId := "p1", scheduledAt := 0, status := .pending
    retryCount := 0, maxRetries := 3, lastError := none }

/-- A failed dispatch outcome. -/
def failResult : DispatchResult :=
  { targetId := "t1", success := false, error := some "boom" }

/-- A successful dispatch outcome. -/
def successResult : DispatchResult :=
  { targetId := "t1", success := true, error := none }

/-- A tracker state whose record for Bluesky has quota left but has not
reset yet. -/
def rlStateLive : RateLimitState :=
  [(.bluesky, { remaining := 5, resetAt := 1000 })]

/-- A tracker state whose record for Bluesky is exhausted and has not reset
yet, so `canProceed` is false. -/
def rlStateBlocked : RateLimitState :=
  [(.bluesky, { remaining := 0, resetAt := 1000 })]

/-! ## Claim C9 -/

/-- Claim C9 fails on the code: `createError` classifies `UNKNOWN_ERROR`
with no explicit override as NOT retryable, since `UNKNOWN_ERROR` is absent
from `retryableCodes`. -/
theorem unknownError_default_retryable_cex :
    (createError .UNKNOWN_ERROR {} 0).retryable = false := by
  decide

/-- Claim C9, amended: an error constructed with code `UNKNOWN_ERROR` and no
explicit `retryable` override is classified as non-retryable; only
`NETWORK_ERROR`, `RATE_LIMITED` and `PLATFORM_ERROR` are retryable by
default. -/
theorem createError_unknown_not_retryable (options : CreateErrorOptions)
    (now : Int) (h : options.retryable = none) :
    (createError .UNKNOWN_ERROR options now).retryable = false ∧
    (createError .VALIDATION_ERROR options now).retryable = false ∧
    (createError .NETWORK_ERROR options now).retryable = true ∧
    (createError .RATE_LIMITED options now).retryable = true ∧
    (createError .PLATFORM_ERROR options now).retryable = true := by
  simp [createError, h, retryableCodes]

/-- Witness for the amended C9 theorem at the empty option object. -/
theorem createError_unknown_not_retryable_witness :
    (createError .UNKNOWN_ERROR {} 7).retryable = false :=
  (createError_unknown_not_retryable {} 7 rfl).1

/-! ## Claim C8 -/

/-- Claim C8 fails on the code: with a live record that still has quota
(`remaining = 5`, `resetAt = 1000`, `now = 0`), `canProceed` is true yet
`getWaitTime` is `1000`, not `0`. -/
theorem waitTime_despite_canProceed_cex :
    (canProceed rlStateLive .bluesky 0).1 = true ∧
    getWaitTime rlStateLive .bluesky 0 = 1000 := by
  decide

/-- Claim C8, amended: `getWaitTime` is `0` exactly when no record exists or
the record has expired; whenever a live (unexpired) record exists it equals
`resetAt - now` regardless of `canProceed` — in particular `canProceed`
false implies a positive wait of `resetAt - now`, but `canProceed` true does
NOT imply a zero wait. -/
theorem getWaitTime_spec (st : RateLimitState) (p : PlatformType)
    (now : Int) :
    ((canProceed st p now).1 = false →
      ∃ rec, limitsGet st p = some rec ∧
        getWaitTime st p now = rec.resetAt - now ∧ 0 < getWaitTime st p now)
    ∧ (limitsGet st p = none → getWaitTime st p now = 0)
    ∧ (∀ rec, limitsGet st p = some rec → now < rec.resetAt →
        getWaitTime st p now = rec.resetAt - now) := by
  unfold canProceed getWaitTime
  cases hg : limitsGet st p with
  | none => simp
  | some rec =>
    refine ⟨?_, by simp, ?_⟩
    · intro hfalse
      by_cases hexp : rec.resetAt ≤ now
      · simp [hexp] at hfalse
      · refine ⟨rec, rfl, by simp [hexp], ?_⟩
        simp [hexp]
        omega
    · intro rec' hrec' hlt
      cases hrec'
      simp [Int.not_le.mpr hlt]

/-- Witness for the amended C8 theorem: in the blocked state the wait is
the record's `resetAt - now`. -/
theorem getWaitTime_spec_witness :
    0 < getWaitTime rlStateBlocked .bluesky 0 := by
  obtain ⟨rec, _, _, hpos⟩ :=
    (getWaitTime_spec rlStateBlocked .bluesky 0).1 (by decide)
  exact hpos

/-! ## Claim C5 -/

/-- Claim C5 fails on the code: `updateCrossPostTarget` has no terminal-state
guard, so a further result-recording call on a `success` target overwrites
it (here to `failed`). -/
theorem updateCrossPostTarget_terminal_cex :
    targetSuccess.status = .success ∧
    updateCrossPostTarget storeWithSuccessTarget "t1" failUpdate
      ≠ storeWithSuccessTarget ∧
    ((updateCrossPostTarget storeWithSuccessTarget "t1" failUpdate).crossPostTargets.map
        (fun t => t.status)) = [.failed] := by
  decide

/-- Claim C5, amended: `updateCrossPostTarget` applies the updates to the
target with the matching id unconditionally — even a terminal
(`success`/`skipped`) target takes any status carried by the update — and
leaves exactly the targets with a different id unchanged. -/
theorem updateCrossPostTarget_unconditional (ps : PostStoreState)
    (id : String) (u : TargetUpdate) (i : Nat) :
    (∀ t, ps.crossPostTargets[i]? = some t → t.id = id →
      (t.status = .success ∨ t.status = .skipped) →
      ∀ st', u.status = some st' →
        ((updateCrossPostTarget ps id u).crossPostTargets[i]?).map
            (fun t => t.status) = some st')
    ∧ (∀ t, ps.crossPostTargets[i]? = some t → ¬ t.id = id →
        (updateCrossPostTarget ps id u).crossPostTargets[i]? = some t) := by
  constructor
  · intro t ht hid _ st' hst'
    simp [updateCrossPostTarget, List.getElem?_map, ht, hid,
      applyTargetUpdate, hst']
  · intro t ht hid
    simp [updateCrossPostTarget, List.getElem?_map, ht, hid]

/-- Witness for the amended C5 theorem at the terminal fixture target. -/
theorem updateCrossPostTarget_unconditional_witness :
    ((updateCrossPostTarget storeWithSuccessTarget "t1" failUpdate).crossPostTargets[0]?).map
        (fun t => t.status) = some .failed :=
  (updateCrossPostTarget_unconditional storeWithSuccessTarget "t1" failUpdate
      0).1
    targetSuccess rfl rfl (Or.inl rfl) .failed rfl

/-! ## Claim C7 -/

/-- Claim C7 fails on the code: with the Bluesky tracker reporting
`canProceed == false`, the placeholder dispatch still records a success
result (never `skipped`) for a post whose only target is a Bluesky
account's. -/
theorem dispatch_ignores_rate_limit_cex :
    (canProceed rlStateBlocked .bluesky 0).1 = false ∧
    (executePostToAllTargets postP1).map (fun r => r.success) = [true] := by
  decide

/-- Claim C7, amended: `executePostToAllTargets` never consults the
`RateLimitTracker`: whatever the tracker state — even one reporting
`canProceed == false` for a platform — it produces one result per target
and every result is a success; no target is ever recorded as skipped (the
result type has no skipped outcome at all). -/
theorem executePostToAllTargets_ignores_tracker (st : RateLimitState)
    (p : PlatformType) (now : Int) (post : Post)
    (_hblocked : (canProceed st p now).1 = false) :
    (executePostToAllTargets post).length = post.crossPostTargets.length ∧
    ∀ r ∈ executePostToAllTargets post, r.success = true := by
  refine ⟨by simp [executePostToAllTargets], ?_⟩
  intro r hr
  rcases List.mem_map.mp hr with ⟨t, _, ht⟩
  rw [← ht]

/-- Witness for the amended C7 theorem at the blocked tracker state. -/
theorem executePostToAllTargets_ignores_tracker_witness :
    (executePostToAllTargets postP1).length = 1 := by
  have h := (executePostToAllTargets_ignores_tracker rlStateBlocked .bluesky 0
    postP1 (by decide)).1
  simpa [postP1] using h

/-! ## Claim C1 -/

/-- Claim C1 fails on the code: a job whose post cannot be resolved
(PostNotFound) and which has its full retry budget left
(`retryCount 0 < maxRetries 3`) is NOT transitioned to `failed`; it is
rescheduled as `pending`. -/
theorem postNotFound_goes_failed_cex :
    jobJ1.retryCount < jobJ1.maxRetries ∧
    findPost emptyPostStore jobJ1.postId = none ∧
    (executeJob 100 emptyPostStore jobJ1).1.status = .pending ∧
    ¬ (executeJob 100 emptyPostStore jobJ1).1.status = .failed := by
  decide

/-- Claim C1, amended: `executeJob` has no non-retryable classification.
Every failure, including an unresolvable post, lands in the same catch
branch: it increments `retryCount`, records `lastError`, and transitions to
`failed` only when the incremented count reaches `maxRetries`; with budget
remaining it reschedules the job as `pending` five minutes out. -/
theorem executeJob_postNotFound_uniform_retry (now : Int)
    (ps : PostStoreState) (job : ScheduledJob)
    (hmiss : findPost ps job.postId = none) :
    (job.retryCount + 1 < job.maxRetries →
      (executeJob now ps job).1.status = .pending ∧
      (executeJob now ps job).1.retryCount = job.retryCount + 1 ∧
      (executeJob now ps job).1.scheduledAt = now + schedulerRetryDelayMs ∧
      (executeJob now ps job).1.lastError = some "Post not found")
    ∧ (job.maxRetries ≤ job.retryCount + 1 →
      (executeJob now ps job).1.status = .failed ∧
      (executeJob now ps job).1.retryCount = job.retryCount + 1) := by
  rw [executeJob_postMissing now ps job hmiss]
  constructor
  · intro hlt
    rw [executeJobCatch_budget now { job with status := .processing } ps
      "Post not found" hlt]
    exact ⟨rfl, rfl, rfl, rfl⟩
  · intro hge
    rw [executeJobCatch_exhausted now { job with status := .processing } ps
      "Post not found" hge]
    exact ⟨rfl, rfl⟩

/-- Witness for the amended C1 theorem: the fixture job with full budget is
rescheduled as pending. -/
theorem executeJob_postNotFound_uniform_retry_witness :
    (executeJob 100 emptyPostStore jobJ1).1.status = .pending :=
  ((executeJob_postNotFound_uniform_retry 100 emptyPostStore jobJ1 rfl).1
    (by decide)).1

/-! ## Claim C2 -/

/-- Claim C2 fails on the code: after a retryable failure of a job with
retry count 0, the job is rescheduled exactly 300000 ms (5 minutes) out,
which no jitter in `[0, 1000)` can reconcile with the backoff formula
`min(base * 2^n + jitter, cap)` at the `withRetry` defaults (base 1000 ms,
cap 30000 ms) — that formula never exceeds the 30000 ms cap. -/
theorem reschedule_delay_not_backoff_cex :
    jobJ1.retryCount = 0 ∧
    (executeJobWith 0 [failResult] postStoreP1 jobJ1).1.status = .pending ∧
    (executeJobWith 0 [failResult] postStoreP1 jobJ1).1.scheduledAt
      = 300000 ∧
    (∀ jitter : ℚ, 0 ≤ jitter → jitter < 1000 →
      backoffDelay withRetryBaseDelayMs withRetryMaxDelayMs 0 jitter
        < 300000) := by
  refine ⟨rfl, by decide, by decide, ?_⟩
  intro jitter _ _
  unfold backoffDelay withRetryBaseDelayMs withRetryMaxDelayMs
  calc min (1000 * 2 ^ 0 + jitter) 30000 ≤ 30000 := min_le_right _ _
  _ < 300000 := by norm_num

/-- Claim C2, amended: a job rescheduled after a failure with retry budget
remaining is rescheduled at a constant `now + 300000` ms (5 minutes),
independent of its retry count; the exponential-backoff formula
`min(base * 2^n + jitter, cap)` belongs to the `withRetry` helper of
`errors.ts`, which the scheduler's job rescheduling does not use. -/
theorem executeJob_reschedule_constant_delay (now : Int)
    (results : List DispatchResult) (ps : PostStoreState)
    (job : ScheduledJob) (post : Post)
    (hfound : findPost ps job.postId = some post)
    (hne : ¬ results = [])
    (hallfail : results.all (fun r => !r.success) = true)
    (hbudget : job.retryCount + 1 < job.maxRetries) :
    (executeJobWith now results ps job).1.status = .pending ∧
    (executeJobWith now results ps job).1.retryCount = job.retryCount + 1 ∧
    (executeJobWith now results ps job).1.scheduledAt
      = now + schedulerRetryDelayMs ∧
    schedulerRetryDelayMs = 300000 := by
  have hany : results.any (fun r => r.success) = false := by
    rw [List.any_eq_false]
    intro r hr
    have := List.all_eq_true.mp hallfail r hr
    simp at this
    simp [this]
  have hall : results.all (fun r => r.success) = false := by
    rw [List.all_eq_false]
    cases results with
    | nil => exact absurd rfl hne
    | cons r rest =>
      refine ⟨r, List.mem_cons_self .., ?_⟩
      have := List.all_eq_true.mp hallfail r (List.mem_cons_self ..)
      simp at this
      simp [this]
  rw [executeJobWith_noSuccess now results ps job post hfound hall hany,
    executeJobCatch_budget now { job with status := .processing }
      (updatePost ps job.postId { status := some .posting } now)
      "All platforms failed" hbudget]
  exact ⟨rfl, rfl, rfl, rfl⟩

/-- Witness for the amended C2 theorem at the fixture post and one failing
dispatch result. -/
theorem executeJob_reschedule_constant_delay_witness :
    (executeJobWith 11 [failResult] postStoreP1 jobJ1).1.scheduledAt
      = 11 + schedulerRetryDelayMs :=
  (executeJob_reschedule_constant_delay 11 [failResult] postStoreP1 jobJ1
    postP1 rfl (by decide) (by decide) (by decide)).2.2.1

/-! ## Claim C3 -/

/-- Claim C3, confirmed: when the post resolves, an execution whose target
results are all successes completes the job and marks the post `posted`
(with `postedAt = now`); an execution with at least one success and at
least one failure completes the job (no retry — the status is `completed`,
not `pending` or `failed`) and marks the post `partial`. -/
theorem executeJob_success_aggregation (now : Int)
    (results : List DispatchResult) (ps : PostStoreState)
    (job : ScheduledJob) (post : Post)
    (hfound : findPost ps job.postId = some post) :
    (results.all (fun r => r.success) = true →
      (executeJobWith now results ps job).1.status = .completed ∧
      ∃ p', findPost (executeJobWith now results ps job).2 job.postId
          = some p' ∧ p'.status = .posted ∧ p'.postedAt = some now)
    ∧ (results.any (fun r => r.success) = true →
      results.all (fun r => r.success) = false →
      (executeJobWith now results ps job).1.status = .completed ∧
      ∃ p', findPost (executeJobWith now results ps job).2 job.postId
          = some p' ∧ p'.status = .partial_) := by
  constructor
  · intro hall
    rw [executeJobWith_allSuccess now results ps job post hfound hall]
    refine ⟨rfl, ?_⟩
    rw [findPost_updatePost, findPost_updatePost, hfound]
    exact ⟨_, rfl, rfl, rfl⟩
  · intro hany hall
    rw [executeJobWith_partialSuccess now results ps job post hfound hall
      hany]
    refine ⟨rfl, ?_⟩
    rw [findPost_updatePost, findPost_updatePost, hfound]
    exact ⟨_, rfl, rfl⟩

/-- Witness for the C3 theorem: an all-success run completes the job, and a
mixed run yields post status `partial`. -/
theorem executeJob_success_aggregation_witness :
    (executeJobWith 7 [successResult] postStoreP1 jobJ1).1.status
      = .completed ∧
    ∃ p', findPost
        (executeJobWith 7 [successResult, failResult] postStoreP1 jobJ1).2
        jobJ1.postId = some p' ∧ p'.status = .partial_ :=
  ⟨((executeJob_success_aggregation 7 [successResult] postStoreP1 jobJ1
      postP1 rfl).1 (by decide)).1,
    ((executeJob_success_aggregation 7 [successResult, failResult]
      postStoreP1 jobJ1 postP1 rfl).2 (by decide) (by decide)).2⟩

/-! ## Claim C4 -/

/-- Claim C4, confirmed: in every state reachable through the scheduler's
operations (schedule, cancel, start, stop, and execution of a due job with
any dispatch outcomes), every job in the store satisfies
`retryCount ≤ maxRetries`. -/
theorem retryCount_le_maxRetries {st : SystemState} (h : Reachable st) :
    ∀ j ∈ st.sched.jobs, j.retryCount ≤ j.maxRetries :=
  fun j hj => (jobs_invariant h j hj).2.1

/-- Witness for the C4 theorem: the job created by scheduling `postP1` in
the initial system respects its retry budget. -/
theorem retryCount_le_maxRetries_witness :
    ((schedulePost initialScheduler postP1 0 "j1").2).retryCount
      ≤ ((schedulePost initialScheduler postP1 0 "j1").2).maxRetries :=
  retryCount_le_maxRetries
    (Reachable.schedule postP1 0 "j1" Reachable.init rfl) _ (by decide)

/-! ## Claim C6 -/

/-! ### Branch equations for `cancelScheduledPost` -/

theorem cancelScheduledPost_eq_found (s : SchedulerState) (jobId : String)
    (job : ScheduledJob) (hget : jobsGet s.jobs jobId = some job) :
    cancelScheduledPost s jobId
      = if job.status = .pending then
          ({ s with jobs := jobsDelete s.jobs jobId }, true)
        else (s, false) := by
  unfold cancelScheduledPost
  rw [hget]

theorem cancelScheduledPost_eq_missing (s : SchedulerState) (jobId : String)
    (hget : jobsGet s.jobs jobId = none) :
    cancelScheduledPost s jobId = (s, false) := by
  unfold cancelScheduledPost
  rw [hget]

/-- Claim C6, confirmed: `cancelScheduledPost` returns `true` exactly when
the job exists with status `pending`; on `false` (job `processing`,
terminal, or unknown) the state is unchanged; on `true` the job is removed,
so no job with that id appears in the store, in the due-jobs snapshot for
any `asOf`, or in the pending-jobs listing. -/
theorem cancel_pending_removes (s : SchedulerState) (jobId : String) :
    ((cancelScheduledPost s jobId).2 = true ↔
      ∃ job, jobsGet s.jobs jobId = some job ∧ job.status = .pending)
    ∧ ((cancelScheduledPost s jobId).2 = false →
        (cancelScheduledPost s jobId).1 = s)
    ∧ ((cancelScheduledPost s jobId).2 = true →
        (∀ j ∈ (cancelScheduledPost s jobId).1.jobs, ¬ j.id = jobId) ∧
        (∀ asOf : Int, ∀ j ∈ duePosts (cancelScheduledPost s jobId).1 asOf,
          ¬ j.id = jobId) ∧
        (∀ j ∈ getScheduledJobs (cancelScheduledPost s jobId).1,
          ¬ j.id = jobId)) := by
  cases hget : jobsGet s.jobs jobId with
  | none =>
    rw [cancelScheduledPost_eq_missing s jobId hget]
    refine ⟨?_, fun _ => rfl, fun htrue => by simp at htrue⟩
    simp [hget]
  | some job =>
    rw [cancelScheduledPost_eq_found s jobId job hget]
    by_cases hp : job.status = .pending
    · rw [if_pos hp]
      refine ⟨⟨fun _ => ⟨job, rfl, hp⟩, fun _ => rfl⟩,
        fun hfalse => by simp at hfalse, fun _ => ⟨?_, ?_, ?_⟩⟩
      · intro j hj
        simp only [jobsDelete, List.mem_filter, decide_not,
          Bool.not_eq_eq_eq_not, Bool.not_true, decide_eq_false_iff_not]
          at hj
        exact hj.2
      · intro asOf j hj
        simp only [duePosts, jobsDelete, List.mem_filter, decide_not,
          Bool.not_eq_eq_eq_not, Bool.not_true, decide_eq_false_iff_not]
          at hj
        exact hj.1.2
      · intro j hj
        simp only [getScheduledJobs, jobsDelete, List.mem_filter, decide_not,
          Bool.not_eq_eq_eq_not, Bool.not_true, decide_eq_false_iff_not]
          at hj
        exact hj.1.2
    · rw [if_neg hp]
      refine ⟨?_, fun _ => rfl, fun htrue => by simp at htrue⟩
      simp only [Bool.false_eq_true, false_iff]
      rintro ⟨job2, hj2, hp2⟩
      cases hj2
      exact hp hp2

/-- Witness for the C6 theorem: cancelling the pending fixture job in a
store that holds it returns `true`. -/
theorem cancel_pending_removes_witness :
    (cancelScheduledPost { initialScheduler with jobs := [jobJ1] } "j1").2
      = true :=
  (cancel_pending_removes { initialScheduler with jobs := [jobJ1] } "j1").1.mpr
    ⟨jobJ1, by decide, rfl⟩

/-! ## Claim C10 -/

theorem start_isRunning (s : SchedulerState) : (start s).isRunning = true := by
  by_cases hr : s.isRunning = true
  · simp [start, hr]
  · simp [start, hr]

theorem start_of_running {s : SchedulerState} (h : s.isRunning = true) :
    start s = s := by
  simp [start, h]

/-- The lifecycle fields only ever hold: either no interval is registered
and no recurring timer is live, or exactly the stored interval id is live
and the service is running. -/
def TimerInv (s : SchedulerState) : Prop :=
  (s.checkInterval = none ∧ s.activeTimers = []) ∨
  (∃ tid, s.checkInterval = some tid ∧ s.activeTimers = [tid] ∧
    s.isRunning = true)

theorem TimerInv_congr {s s2 : SchedulerState}
    (hci : s2.checkInterval = s.checkInterval)
    (hat : s2.activeTimers = s.activeTimers)
    (hr : s2.isRunning = s.isRunning) (h : TimerInv s) : TimerInv s2 := by
  unfold TimerInv at h ⊢
  rw [hci, hat, hr]
  exact h

theorem cancel_lifecycle_fields (s : SchedulerState) (jobId : String) :
    (cancelScheduledPost s jobId).1.checkInterval = s.checkInterval ∧
    (cancelScheduledPost s jobId).1.activeTimers = s.activeTimers ∧
    (cancelScheduledPost s jobId).1.isRunning = s.isRunning := by
  cases hget : jobsGet s.jobs jobId with
  | none =>
    rw [cancelScheduledPost_eq_missing s jobId hget]
    exact ⟨rfl, rfl, rfl⟩
  | some job =>
    rw [cancelScheduledPost_eq_found s jobId job hget]
    by_cases hp : job.status = .pending
    · rw [if_pos hp]
      exact ⟨rfl, rfl, rfl⟩
    · rw [if_neg hp]
      exact ⟨rfl, rfl, rfl⟩

theorem timer_invariant {st : SystemState} (h : Reachable st) :
    TimerInv st.sched := by
  induction h with
  | init => exact Or.inl ⟨rfl, rfl⟩
  | schedule post scheduledAt newId hr hfresh ih =>
    exact TimerInv_congr rfl rfl rfl ih
  | cancel jobId hr ih =>
    rename_i st2
    have hf := cancel_lifecycle_fields st2.sched jobId
    exact TimerInv_congr hf.1 hf.2.1 hf.2.2 ih
  | startStep hr ih =>
    rename_i st2
    by_cases hrun : st2.sched.isRunning = true
    · have heq := start_of_running hrun
      exact TimerInv_congr (by rw [heq]) (by rw [heq]) (by rw [heq]) ih
    · rcases ih with ⟨hci, hat⟩ | ⟨tid, hci, hat, hrun2⟩
      · right
        exact ⟨st2.sched.nextTimerId, by simp [start, hrun],
          by simp [start, hrun, hat], by simp [start, hrun]⟩
      · exact absurd hrun2 hrun
  | stopStep hr ih =>
    rename_i st2
    rcases ih with ⟨hci, hat⟩ | ⟨tid, hci, hat, hrun⟩
    · unfold stop
      rw [hci]
      exact Or.inl ⟨rfl, hat⟩
    · unfold stop
      rw [hci]
      refine Or.inl ⟨rfl, ?_⟩
      simp [hat]
  | executeDue job now results hr hget hpend hdue ih =>
    exact TimerInv_congr rfl rfl rfl ih

/-- Claim C10, confirmed: while the scheduler is running, `start` is a
no-op (`start s = s`), so a second `start` without an intervening `stop`
changes nothing and registers no additional polling timer; in every
reachable state at most one recurring check interval is live after a
`start`. -/
theorem start_idempotent {st : SystemState} (h : Reachable st) :
    (st.sched.isRunning = true → start st.sched = st.sched) ∧
    start (start st.sched) = start st.sched ∧
    (start st.sched).activeTimers.length ≤ 1 := by
  have hinv := timer_invariant h
  refine ⟨fun hr => start_of_running hr,
    start_of_running (start_isRunning _), ?_⟩
  rcases hinv with ⟨hci, hat⟩ | ⟨tid, hci, hat, hrun⟩
  · by_cases hr : st.sched.isRunning = true
    · rw [start_of_running hr, hat]
      simp
    · simp [start, hr, hat]
  · rw [start_of_running hrun, hat]
    simp

/-- Witness for the C10 theorem: starting twice from the initial scheduler
equals starting once. -/
theorem start_idempotent_witness :
    start (start initialScheduler) = start initialScheduler :=
  (start_idempotent Reachable.init).2.1

end CrossLink
